import Mathlib

/-!
Shallow embedding of the YTDownloader repository core
(`src/YTDownloader/downloader.py` plus the duplicate helper file
`src/scripts/utils/downloader_base.py`), together with theorems checking
the natural-language specification against it.

Modelling conventions:
* Python `re` patterns are embedded as a small regular-expression datatype
  with a Brzozowski-derivative matcher; `re.fullmatch` is anchored whole
  string matching, so the `^`/`$` anchors in the source patterns are
  redundant and dropped.  The character classes `\w`, `\d`, `\S` and `.`
  are modelled with their ASCII meaning (Python's default is
  Unicode-aware; every claim concerns ASCII URLs only).
* The filesystem is modelled as a predicate `fs : String → Bool` telling
  which paths exist; `pathlib.Path` string normalisation is elided, a
  path is the literal joined string.
* The unbounded `while` probe loops are embedded with an explicit fuel
  parameter; `none` is returned when the fuel runs out.
* pytube and PySimpleGUI are external collaborators: stream filtering is
  a parameter `gs`, GUI popups / widget updates / the blocking download
  primitive are recorded as an effect trace.
-/

namespace YTDownloader

/-! ### A tiny regex engine (Brzozowski derivatives) -/

/-- Regular expressions over `Char`, with character classes given by a
Boolean predicate. -/
inductive Regex where
  | emp : Regex
  | eps : Regex
  | cls : (Char → Bool) → Regex
  | cat : Regex → Regex → Regex
  | alt : Regex → Regex → Regex
  | star : Regex → Regex

/-- Does the regex accept the empty string? -/
def Regex.nullable : Regex → Bool
  | .emp => false
  | .eps => true
  | .cls _ => false
  | .cat a b => a.nullable && b.nullable
  | .alt a b => a.nullable || b.nullable
  | .star _ => true

/-- Smart concatenation, simplifying the `emp` and `eps` units. -/
def Regex.mkCat : Regex → Regex → Regex
  | .emp, _ => .emp
  | .eps, b => b
  | a, b =>
    match b with
    | .emp => .emp
    | .eps => a
    | b => .cat a b

/-- Smart alternation, simplifying the `emp` unit. -/
def Regex.mkAlt : Regex → Regex → Regex
  | .emp, b => b
  | a, b =>
    match b with
    | .emp => a
    | b => .alt a b

/-- Brzozowski derivative of a regex with respect to one character. -/
def Regex.deriv : Regex → Char → Regex
  | .emp, _ => .emp
  | .eps, _ => .emp
  | .cls p, c => if p c then .eps else .emp
  | .cat a b, c =>
    if a.nullable then Regex.mkAlt (Regex.mkCat (a.deriv c) b) (b.deriv c)
    else Regex.mkCat (a.deriv c) b
  | .alt a b, c => Regex.mkAlt (a.deriv c) (b.deriv c)
  | .star a, c => Regex.mkCat (a.deriv c) (.star a)

/-- Anchored whole-string matching, the embedding of `re.fullmatch`. -/
def Regex.fullmatch (r : Regex) (s : String) : Bool :=
  (s.data.foldl Regex.deriv r).nullable

/-- Literal single character. -/
def rchar (c : Char) : Regex := .cls (fun x => x == c)

/-- Literal string. -/
def rstr (s : String) : Regex := s.data.foldr (fun c r => .cat (rchar c) r) .eps

/-- `(?:r)?`. -/
def ropt (r : Regex) : Regex := .alt r .eps

/-- `r{n}`. -/
def rrep (r : Regex) : Nat → Regex
  | 0 => .eps
  | n + 1 => .cat r (rrep r n)

/-- `r+`. -/
def rplus (r : Regex) : Regex := .cat r (.star r)

/-- `.` — any character except a newline. -/
def rdot : Regex := .cls (fun c => !(c == '\n'))

/-- ASCII model of Python's `\w`: letters, digits and underscore. -/
def isWordChar (c : Char) : Bool := c.isAlphanum || c == '_'

/-- ASCII model of Python's `\S`: anything that is not whitespace. -/
def isNonSpace (c : Char) : Bool :=
  !(c == ' ' || c == '\t' || c == '\n' || c == '\r' || c == '\x0b' || c == '\x0c')

/-! ### The two URL patterns of `downloader.py` -/

/-- The shared `(?:https?:\/\/)?` portion. -/
def schemeRe : Regex :=
  ropt (.cat (rstr "http") (.cat (ropt (rchar 's')) (rstr "://")))

/-- The shared `(?:www\.|m\.)?` portion. -/
def wwwRe : Regex := ropt (.alt (rstr "www.") (rstr "m."))

/-- The shared `(?:youtube(?:-nocookie)?\.com|youtu.be)` portion.  Note the
unescaped dot in `youtu.be`, faithfully an any-character class. -/
def domainRe : Regex :=
  .alt (.cat (rstr "youtube") (.cat (ropt (rstr "-nocookie")) (rstr ".com")))
    (.cat (rstr "youtu") (.cat rdot (rstr "be")))

/-- A character of the class `[\w\-_]` (identical to `[\w\-\_]`). -/
def playlistIdChar : Regex := .cls (fun c => isWordChar c || c == '-' || c == '_')

/-- Embedding of `_YOUTUBE_PLAYLIST_URL_PATTERN`:
`^(?:https?:\/\/)?(?:www\.|m\.)?(?:youtube(?:-nocookie)?\.com|youtu.be)\/playlist\?list=[\w\-_]{34}$`. -/
def YOUTUBE_PLAYLIST_URL_PATTERN : Regex :=
  .cat schemeRe (.cat wwwRe (.cat domainRe
    (.cat (rstr "/playlist?list=") (rrep playlistIdChar 34))))

/-- The `(?:\?t=(?:\d+h)?(?:\d+m)?(?:\d+s)?(?:\d+))?` tail of the video
pattern. -/
def timeSuffixRe : Regex :=
  ropt (.cat (rstr "?t=")
    (.cat (ropt (.cat (rplus (.cls Char.isDigit)) (rchar 'h')))
      (.cat (ropt (.cat (rplus (.cls Char.isDigit)) (rchar 'm')))
        (.cat (ropt (.cat (rplus (.cls Char.isDigit)) (rchar 's')))
          (rplus (.cls Char.isDigit))))))

/-- Embedding of `_YOUTUBE_VIDEO_URL_PATTERN`:
`^(?:https?:\/\/)?(?:www\.|m\.)?(?:youtube(?:-nocookie)?\.com|youtu.be)\/?.*(?:watch|embed)?(?:.*v=|v\/|\/)[\w\-\_]{11}(?:\S+)?(?:\?t=(?:\d+h)?(?:\d+m)?(?:\d+s)?(?:\d+))?$`. -/
def YOUTUBE_VIDEO_URL_PATTERN : Regex :=
  .cat schemeRe (.cat wwwRe (.cat domainRe
    (.cat (ropt (rchar '/')) (.cat (.star rdot)
      (.cat (ropt (.alt (rstr "watch") (rstr "embed")))
        (.cat (.alt (.cat (.star rdot) (rstr "v=")) (.alt (rstr "v/") (rchar '/')))
          (.cat (rrep playlistIdChar 11)
            (.cat (ropt (rplus (.cls isNonSpace))) timeSuffixRe))))))))

/-! ### `get_downloader` -/

/-- The classification result: which concrete downloader class
`get_downloader` instantiates (the constructed object itself depends on
external network data, so only the tag is modelled). -/
inductive DownloaderKind where
  | playlist : DownloaderKind
  | video : DownloaderKind
deriving DecidableEq

/-- Embedding of `get_downloader`: try the playlist pattern, then the
video pattern, else raise `pytube.exceptions.RegexMatchError` (modelled
as `Except.error` carrying the two constructor arguments). -/
def get_downloader (url : String) : Except String DownloaderKind :=
  if YOUTUBE_PLAYLIST_URL_PATTERN.fullmatch url then .ok .playlist
  else if YOUTUBE_VIDEO_URL_PATTERN.fullmatch url then .ok .video
  else .error "get_downloader: _YOUTUBE_PLAYLIST_URL_PATTERN | _YOUTUBE_VIDEO_URL_PATTERN"

/-! ### Filename sanitation -/

/-- The forbidden Windows filename characters, the characters of the raw
string literal the source tests membership in. -/
def forbiddenCharacters : List Char :=
  ['"', '\\', '/', ':', '*', '?', '<', '>', '|']

/-- Embedding of `_remove_forbidden_characters_from_file_name` (and of
the byte-identical `YouTubeDownloader._remove_forbidden_characters` in
`scripts/utils/downloader_base.py`): join the characters of the name
that are not forbidden. -/
def _remove_forbidden_characters_from_file_name (name : String) : String :=
  String.mk (name.data.filter (fun c => !(decide (c ∈ forbiddenCharacters))))

/-! ### The increment-probe helpers -/

/-- The unbounded `while candidate(i).exists(): i += 1` probe loop of
both increment helpers, embedded with explicit fuel; `occupied i` is the
`exists()` check on the i-th candidate. -/
def probeLoop (occupied : Nat → Bool) : Nat → Nat → Option Nat
  | 0, _ => none
  | fuel + 1, i => if occupied i then probeLoop occupied fuel (i + 1) else some i

/-- The candidate directory built by `_increment_playlist_dir_name`. -/
def playlistCandidate (root sub : String) (i : Nat) : String :=
  root ++ "/" ++ sub ++ " (" ++ toString i ++ ")"

/-- Embedding of `_increment_playlist_dir_name`: return `root/sub` if it
does not exist, else probe `root/sub (1)`, `root/sub (2)`, ... -/
def _increment_playlist_dir_name (fs : String → Bool) (root sub : String)
    (fuel : Nat) : Option String :=
  let originalPath := root ++ "/" ++ sub
  if !(fs originalPath) then some originalPath
  else
    match probeLoop (fun i => fs (playlistCandidate root sub i)) fuel 1 with
    | some i => some (playlistCandidate root sub i)
    | none => none

/-- The candidate file path probed by `_increment_video_file_name`. -/
def videoCandidatePath (root file_name : String) (i : Nat) : String :=
  root ++ "/" ++ file_name ++ " (" ++ toString i ++ ").mp4"

/-- Embedding of `_increment_video_file_name`: return the bare
`file_name` if `root/file_name.mp4` does not exist, else the name
`file_name (i)` for the first free probe (the function returns the file
name, not a full path). -/
def _increment_video_file_name (fs : String → Bool) (root file_name : String)
    (fuel : Nat) : Option String :=
  if !(fs (root ++ "/" ++ file_name ++ ".mp4")) then some file_name
  else
    match probeLoop (fun i => fs (videoCandidatePath root file_name i)) fuel 1 with
    | some i => some (file_name ++ " (" ++ toString i ++ ")")
    | none => none

/-! ### Data model: download options, streams, effects -/

/-- Modelled from the spec: the module `YTDownloader/download_options.py`
is not under `src/`; per the spec it provides "an enumerated
configuration value (e.g. HD / LD / Audio-only) carrying the filter
criteria (resolution, mime type, progressive flag, audio bitrate)".  The
filter criteria are consumed only by the external pytube stream filter,
which is a parameter here, so the enumeration alone is embedded. -/
inductive DownloadOptions where
  | hd : DownloadOptions
  | ld : DownloadOptions
  | audio : DownloadOptions
deriving DecidableEq

/-- A pytube `Stream`, reduced to the attributes the embedded code
reads: its title and its file size in bytes. -/
structure Stream where
  title : String
  filesize : Nat
deriving DecidableEq

/-- A pytube `YouTube` video object, reduced to the attribute the
embedded code reads. -/
structure YouTube where
  title : String
deriving DecidableEq

/-- Observable effects of a downloader method: GUI popups, opening the
system browser, calling the external blocking download primitive
(`output_path`, `filename`), and the two window widget updates
(`-DOWNLOADPROGRESS-` and `-COMPLETED-`). -/
inductive Effect where
  | popup : String → Effect
  | openBrowser : String → Effect
  | downloadPrim : String → String → Effect
  | progressUpdate : Nat → Effect
  | completedUpdate : String → Effect
deriving DecidableEq

/-- The mutable widget values of the download window that the embedded
code writes to. -/
structure WindowState where
  progressValue : Nat
  completedText : String
deriving DecidableEq

/-- The file paths written by the external download primitive in a
trace (pytube writes the file at `output_path/filename`). -/
def writtenFiles (effects : List Effect) : List String :=
  effects.filterMap fun e =>
    match e with
    | Effect.downloadPrim p f => some (p ++ "/" ++ f)
    | _ => none

/-- Number of invocations of the external download primitive in a
trace. -/
def downloadCount (effects : List Effect) : Nat := (writtenFiles effects).length

/-- The URL normalisation performed by `YouTubeDownloader.__init__`:
keep the url if it starts with `https://`, else prepend `https://`. -/
def normalizeUrl (url : String) : String :=
  if "https://".data.isPrefixOf url.data then url else "https://" ++ url

/-- The body of `YouTubeDownloader._download_dir_popup`. -/
def _download_dir_popup : List Effect :=
  [Effect.popup "Please select a download directory"]

/-- The body of `YouTubeDownloader._resolution_unavailable_popup`. -/
def _resolution_unavailable_popup : List Effect :=
  [Effect.popup "This resolution is unavailable."]

/-! ### The playlist downloader -/

/-- The state of a `PlaylistDownloader` object: the normalised URL, the
external playlist metadata read by the code, the stream-selection
binding made in `__init__`, and the window widgets. -/
structure PlaylistDownloader where
  url : String
  playlistTitle : String
  playlistLength : Nat
  ownerUrl : String
  streamSelection : DownloadOptions → Option (List Stream)
  window : WindowState

/-- `PlaylistDownloader._get_playlist`: map the external stream filter
(`_get_stream_from_video`, a pytube call modelled as the parameter `gs`)
over the playlist videos; the thread-pool `executor.map` returns results
in input order. -/
def _get_playlist (gs : YouTube → DownloadOptions → Option Stream)
    (videos : List YouTube) (download_options : DownloadOptions) :
    List (Option Stream) :=
  videos.map fun v => gs v download_options

/-- The `hd_list if None not in hd_list else None` binding of
`PlaylistDownloader.__init__`; when no entry is `None` the original list
is kept (its entries, all present, are the `reduceOption`). -/
def selectionFromList (l : List (Option Stream)) : Option (List Stream) :=
  if none ∈ l then none else some l.reduceOption

/-- `PlaylistDownloader.__init__`: normalise the URL, take the external
playlist data (`videos`, `title`, `owner_url`; `playlist.length` is the
number of videos) and bind the stream selection for the three options
once.  The initial window has an empty `-COMPLETED-` text and a progress
bar at zero. -/
def mkPlaylistDownloader (gs : YouTube → DownloadOptions → Option Stream)
    (url title ownerUrl : String) (videos : List YouTube) :
    PlaylistDownloader where
  url := normalizeUrl url
  playlistTitle := title
  playlistLength := videos.length
  ownerUrl := ownerUrl
  streamSelection := fun o =>
    match o with
    | .hd => selectionFromList (_get_playlist gs videos .hd)
    | .ld => selectionFromList (_get_playlist gs videos .ld)
    | .audio => selectionFromList (_get_playlist gs videos .audio)
  window := { progressValue := 0, completedText := "" }

/-- `PlaylistDownloader._get_playlist_size`, with the megabyte float
formatting elided: `none` stands for the "Unavailable" label, `some n`
for the formatted total of `n` bytes. -/
def PlaylistDownloader.getPlaylistSizeBytes (d : PlaylistDownloader)
    (download_options : DownloadOptions) : Option Nat :=
  match d.streamSelection download_options with
  | none => none
  | some streams => some (streams.map Stream.filesize).sum

/-- One iteration block of the `for video in streams_selection` loop of
`PlaylistDownloader.download`, carrying the `download_counter`: call the
download primitive, then update the progress bar and the completed
label. -/
def playlistDownloadLoop (downloadPath : String) (playlistLength : Nat) :
    List Stream → Nat → List Effect
  | [], _ => []
  | video :: rest, counter =>
    Effect.downloadPrim downloadPath
        (_remove_forbidden_characters_from_file_name video.title ++ ".mp4")
      :: Effect.progressUpdate (counter + 1)
      :: Effect.completedUpdate
          (toString (counter + 1) ++ " of " ++ toString playlistLength)
      :: playlistDownloadLoop downloadPath playlistLength rest (counter + 1)

/-- `PlaylistDownloader.download`, as the object after the call together
with the trace of effects.  `none` occurs only when the probe fuel runs
out (the Python `while` loop would not terminate).  The final window
state is the reset performed by `_download_complete`. -/
def PlaylistDownloader.download (d : PlaylistDownloader) (fs : String → Bool)
    (download_options : DownloadOptions) (download_dir : String)
    (fuel : Nat) : Option (PlaylistDownloader × List Effect) :=
  if download_dir = "" then some (d, _download_dir_popup)
  else
    match d.streamSelection download_options with
    | none => some (d, _resolution_unavailable_popup)
    | some streams_selection =>
      match _increment_playlist_dir_name fs download_dir
          (_remove_forbidden_characters_from_file_name d.playlistTitle) fuel with
      | none => none
      | some download_path =>
        some ({ d with window := { progressValue := 0, completedText := "" } },
          playlistDownloadLoop download_path d.playlistLength streams_selection 0
            ++ [Effect.progressUpdate 0, Effect.completedUpdate "",
                Effect.popup "Download completed"])

/-- One dispatch of the `create_window` event loop of
`PlaylistDownloader` (closing the window ends the loop and dispatches
nothing). -/
def PlaylistDownloader.step (d : PlaylistDownloader) (fs : String → Bool)
    (event folder : String) (fuel : Nat) :
    Option (PlaylistDownloader × List Effect) :=
  if event = "-URL-" then some (d, [Effect.openBrowser d.url])
  else if event = "-OWNER-" then some (d, [Effect.openBrowser d.ownerUrl])
  else if event = "-HD-" then d.download fs .hd folder fuel
  else if event = "-LD-" then d.download fs .ld folder fuel
  else if event = "-AUDIOALL-" then d.download fs .audio folder fuel
  else some (d, [])

/-! ### The video downloader -/

/-- The state of a `VideoDownloader` object. -/
structure VideoDownloader where
  url : String
  videoTitle : String
  channelUrl : String
  thumbnailUrl : String
  streamSelection : DownloadOptions → Option Stream
  window : WindowState

/-- `VideoDownloader.__init__`: normalise the URL, take the external
video object and bind the per-option stream selection once. -/
def mkVideoDownloader (gs : YouTube → DownloadOptions → Option Stream)
    (url : String) (video : YouTube) (channelUrl thumbnailUrl : String) :
    VideoDownloader where
  url := normalizeUrl url
  videoTitle := video.title
  channelUrl := channelUrl
  thumbnailUrl := thumbnailUrl
  streamSelection := fun o =>
    match o with
    | .hd => gs video .hd
    | .ld => gs video .ld
    | .audio => gs video .audio
  window := { progressValue := 0, completedText := "" }

/-- `VideoDownloader._get_video_size`, with the megabyte float
formatting elided: `none` stands for the "Unavailable" label. -/
def VideoDownloader.getVideoSizeBytes (d : VideoDownloader)
    (download_options : DownloadOptions) : Option Nat :=
  match d.streamSelection download_options with
  | none => none
  | some stream => some stream.filesize

/-- `VideoDownloader.download`: after the two guards, sanitise the video
title, increment the file name against the target directory and call
the download primitive once; the object state is untouched (the window
is only written by the pytube callbacks). -/
def VideoDownloader.download (d : VideoDownloader) (fs : String → Bool)
    (download_options : DownloadOptions) (download_dir : String)
    (fuel : Nat) : Option (VideoDownloader × List Effect) :=
  if download_dir = "" then some (d, _download_dir_popup)
  else
    match d.streamSelection download_options with
    | none => some (d, _resolution_unavailable_popup)
    | some _stream =>
      match _increment_video_file_name fs download_dir
          (_remove_forbidden_characters_from_file_name d.videoTitle) fuel with
      | none => none
      | some incremented =>
        some (d, [Effect.downloadPrim download_dir (incremented ++ ".mp4")])

/-- `VideoDownloader._progress_check` (the pytube progress callback):
set the progress bar to `100 - p` where `p` is the rounded remaining
percentage (the float arithmetic producing `p` is external), and set the
completed label to the constant string of the source. -/
def VideoDownloader.progress_check (d : VideoDownloader)
    (percentRemaining : Nat) : VideoDownloader :=
  { d with window :=
      { progressValue := 100 - percentRemaining,
        completedText := "100% completed" } }

/-- `VideoDownloader._download_complete` (the pytube completion
callback): reset the window and pop up the (sic) "Downloaded complete"
notice. -/
def VideoDownloader.download_complete (d : VideoDownloader) :
    VideoDownloader × List Effect :=
  ({ d with window := { progressValue := 0, completedText := "" } },
    [Effect.popup "Downloaded complete"])

/-- One dispatch of the `create_window` event loop of
`VideoDownloader`. -/
def VideoDownloader.step (d : VideoDownloader) (fs : String → Bool)
    (event folder : String) (fuel : Nat) :
    Option (VideoDownloader × List Effect) :=
  if event = "-URL-" then some (d, [Effect.openBrowser d.url])
  else if event = "-CREATOR-" then some (d, [Effect.openBrowser d.channelUrl])
  else if event = "-THUMB-" then some (d, [Effect.openBrowser d.thumbnailUrl])
  else if event = "-HD-" then d.download fs .hd folder fuel
  else if event = "-LD-" then d.download fs .ld folder fuel
  else if event = "-AUDIO-" then d.download fs .audio folder fuel
  else some (d, [])

/-! ### Helper lemmas -/

/-- The probe loop, run with enough fuel, stops at the least free index
at or after its starting point. -/
theorem probeLoop_eq_some (occupied : Nat → Bool) :
    ∀ (fuel i n : Nat), i ≤ n → occupied n = false →
      (∀ m, m < n → i ≤ m → occupied m = true) → n - i < fuel →
      probeLoop occupied fuel i = some n := by
  intro fuel
  induction fuel with
  | zero => intro i n _ _ _ hfuel; omega
  | succ fuel ih =>
    intro i n hin hfree hocc hfuel
    by_cases hi : occupied i = true
    · have hne : i ≠ n := by
        intro h; rw [h] at hi; rw [hfree] at hi; exact Bool.false_ne_true hi
      have hlt : i < n := lt_of_le_of_ne hin hne
      have : probeLoop occupied (fuel + 1) i = probeLoop occupied fuel (i + 1) := by
        simp [probeLoop, hi]
      rw [this]
      exact ih (i + 1) n hlt hfree (fun m hm him => hocc m hm (by omega)) (by omega)
    · have hi' : occupied i = false := by
        cases h : occupied i
        · rfl
        · exact absurd h hi
      have heq : i = n := by
        rcases lt_or_eq_of_le hin with hlt | h
        · exact absurd (hocc i hlt le_rfl) hi
        · exact h
      subst heq
      simp [probeLoop, hi']

/-- Mapping `some` over `reduceOption` recovers a list without `none`
entries. -/
theorem reduceOption_map_some {α : Type} (l : List (Option α))
    (h : none ∉ l) : l.reduceOption.map some = l := by
  induction l with
  | nil => rfl
  | cons a rest ih =>
    cases a with
    | none => exact absurd (List.mem_cons_self none rest) h
    | some x =>
      rw [List.reduceOption_cons_of_some, List.map_cons]
      rw [ih (fun hn => h (List.mem_cons_of_mem _ hn))]

/-- Splitting `selectionFromList` along the `None not in` test. -/
theorem selectionFromList_spec (l : List (Option Stream)) :
    (selectionFromList l = none ↔ none ∈ l)
    ∧ ∀ l', selectionFromList l = some l' →
      l'.map some = l ∧ l'.length = l.length := by
  by_cases h : none ∈ l
  · refine ⟨by simp [selectionFromList, h], ?_⟩
    intro l' hl'
    simp [selectionFromList, h] at hl'
  · refine ⟨by simp [selectionFromList, h], ?_⟩
    intro l' hl'
    simp only [selectionFromList, if_neg h, Option.some.injEq] at hl'
    subst hl'
    refine ⟨reduceOption_map_some l h, ?_⟩
    have := congrArg List.length (reduceOption_map_some l h)
    simpa using this

/-! ### Claim theorems -/

/-- C1: `get_downloader` tries the playlist pattern first and returns
the playlist variant on a full match; otherwise the video variant on a
video full match; otherwise it raises the single `RegexMatchError`; in
particular a URL matching both patterns yields the playlist variant. -/
theorem get_downloader_classifies (url : String) :
    (YOUTUBE_PLAYLIST_URL_PATTERN.fullmatch url = true →
      get_downloader url = .ok .playlist)
    ∧ (YOUTUBE_PLAYLIST_URL_PATTERN.fullmatch url = false →
        YOUTUBE_VIDEO_URL_PATTERN.fullmatch url = true →
        get_downloader url = .ok .video)
    ∧ (YOUTUBE_PLAYLIST_URL_PATTERN.fullmatch url = false →
        YOUTUBE_VIDEO_URL_PATTERN.fullmatch url = false →
        get_downloader url =
          .error "get_downloader: _YOUTUBE_PLAYLIST_URL_PATTERN | _YOUTUBE_VIDEO_URL_PATTERN")
    ∧ (YOUTUBE_PLAYLIST_URL_PATTERN.fullmatch url = true →
        YOUTUBE_VIDEO_URL_PATTERN.fullmatch url = true →
        get_downloader url = .ok .playlist) := by
  refine ⟨fun hp => ?_, fun hp hv => ?_, fun hp hv => ?_, fun hp _ => ?_⟩
  · simp [get_downloader, hp]
  · simp [get_downloader, hp, hv]
  · simp [get_downloader, hp, hv]
  · simp [get_downloader, hp]

/-- Witness for C1 at concrete URLs for each of the three behaviours. -/
theorem get_downloader_classifies_witness :
    get_downloader
        "https://www.youtube.com/playlist?list=PLabcdefghijklmnopqrstuvwxyzABCDEF"
      = .ok .playlist
    ∧ get_downloader "https://www.youtube.com/watch?v=abc12345678" = .ok .video
    ∧ get_downloader "https://example.org" =
        .error "get_downloader: _YOUTUBE_PLAYLIST_URL_PATTERN | _YOUTUBE_VIDEO_URL_PATTERN" :=
  ⟨(get_downloader_classifies _).1 (by decide),
    (get_downloader_classifies _).2.1 (by decide) (by decide),
    (get_downloader_classifies _).2.2.1 (by decide) (by decide)⟩

/-- C2: filename sanitation returns the subsequence of the input
consisting of the non-forbidden characters: the output is a sublist of
the input (preserving relative order), contains no forbidden character,
and keeps every non-forbidden character with its multiplicity. -/
theorem remove_forbidden_characters_spec (name : String) :
    (_remove_forbidden_characters_from_file_name name).data.Sublist name.data
    ∧ (∀ c ∈ (_remove_forbidden_characters_from_file_name name).data,
        c ∉ forbiddenCharacters)
    ∧ ∀ c, c ∉ forbiddenCharacters →
        (_remove_forbidden_characters_from_file_name name).data.count c =
          name.data.count c := by
  refine ⟨List.filter_sublist _, fun c hc => ?_, fun c hc => ?_⟩
  · have := List.of_mem_filter hc
    simpa using this
  · unfold _remove_forbidden_characters_from_file_name
    exact List.count_filter (by simp [hc])

/-- Witness for C2 on a concrete name containing forbidden characters. -/
theorem remove_forbidden_characters_spec_witness :
    'a' ∉ forbiddenCharacters
    ∧ (_remove_forbidden_characters_from_file_name "a:b*a?").data.count 'a' =
        "a:b*a?".data.count 'a' :=
  ⟨by decide, (remove_forbidden_characters_spec "a:b*a?").2.2 'a' (by decide)⟩

/-- C3: both increment helpers return the original candidate when no
filesystem entry exists at it, and otherwise the ` (n)`-suffixed
candidate for the least `n ≥ 1` that is free, probing sequentially
(`fuel ≥ n` makes the unbounded loop reach it). -/
theorem increment_least (fs : String → Bool) (root sub file_name : String)
    (fuel n : Nat) :
    (fs (root ++ "/" ++ sub) = false →
      _increment_playlist_dir_name fs root sub fuel =
        some (root ++ "/" ++ sub))
    ∧ (fs (root ++ "/" ++ sub) = true → 1 ≤ n →
        fs (playlistCandidate root sub n) = false →
        (∀ m, m < n → 1 ≤ m → fs (playlistCandidate root sub m) = true) →
        n ≤ fuel →
        _increment_playlist_dir_name fs root sub fuel =
          some (playlistCandidate root sub n))
    ∧ (fs (root ++ "/" ++ file_name ++ ".mp4") = false →
        _increment_video_file_name fs root file_name fuel = some file_name)
    ∧ (fs (root ++ "/" ++ file_name ++ ".mp4") = true → 1 ≤ n →
        fs (videoCandidatePath root file_name n) = false →
        (∀ m, m < n → 1 ≤ m → fs (videoCandidatePath root file_name m) = true) →
        n ≤ fuel →
        _increment_video_file_name fs root file_name fuel =
          some (file_name ++ " (" ++ toString n ++ ")")) := by
  refine ⟨fun h => ?_, fun h h1 hfree hocc hfuel => ?_,
    fun h => ?_, fun h h1 hfree hocc hfuel => ?_⟩
  · simp [_increment_playlist_dir_name, h]
  · have hloop : probeLoop (fun i => fs (playlistCandidate root sub i)) fuel 1 =
        some n :=
      probeLoop_eq_some _ fuel 1 n h1 hfree
        (fun m hm h1m => hocc m hm h1m) (by omega)
    simp [_increment_playlist_dir_name, h, hloop]
  · simp [_increment_video_file_name, h]
  · have hloop : probeLoop (fun i => fs (videoCandidatePath root file_name i)) fuel 1 =
        some n :=
      probeLoop_eq_some _ fuel 1 n h1 hfree
        (fun m hm h1m => hocc m hm h1m) (by omega)
    simp [_increment_video_file_name, h, hloop]

/-- Witness for C3: a filesystem in which `d/t` and `d/t (1)` exist, so
the second probe `d/t (2)` is chosen; and an empty filesystem for the
unchanged branch. -/
theorem increment_least_witness :
    _increment_playlist_dir_name
        (fun s => s == "d/t" || s == "d/t (1)") "d" "t" 3 =
      some (playlistCandidate "d" "t" 2)
    ∧ _increment_video_file_name (fun _ => false) "d" "t" 3 = some "t" :=
  ⟨(increment_least (fun s => s == "d/t" || s == "d/t (1)") "d" "t" "t" 3 2).2.1
      (by decide) (by decide) (by decide) (by decide) (by decide),
    (increment_least (fun _ => false) "d" "t" "t" 3 2).2.2.1 (by decide)⟩

end YTDownloader

namespace YTDownloader

/-! ### More helper lemmas (traces and state preservation) -/

/-- String concatenation acts on the underlying character lists. -/
theorem string_data_append (s t : String) : (s ++ t).data = s.data ++ t.data := by
  cases s
  cases t
  rfl

/-- String concatenation is associative. -/
theorem string_append_assoc (a b c : String) : a ++ b ++ c = a ++ (b ++ c) := by
  cases a
  cases b
  cases c
  apply congrArg String.mk
  simp [List.append_assoc]

/-- A character list is a Boolean prefix of itself followed by anything. -/
theorem charList_isPrefixOf_append (l m : List Char) :
    l.isPrefixOf (l ++ m) = true := by
  induction l with
  | nil => simp [List.isPrefixOf]
  | cons c rest ih => simp [List.isPrefixOf, ih]

/-- The download count distributes over trace concatenation. -/
theorem downloadCount_append (a b : List Effect) :
    downloadCount (a ++ b) = downloadCount a + downloadCount b := by
  simp [downloadCount, writtenFiles, List.filterMap_append]

/-- Every iteration of the playlist loop calls the download primitive
exactly once. -/
theorem downloadCount_playlistLoop (downloadPath : String) (len : Nat)
    (l : List Stream) : ∀ c,
    downloadCount (playlistDownloadLoop downloadPath len l c) = l.length := by
  induction l with
  | nil => intro c; rfl
  | cons v rest ih =>
    intro c
    simp [playlistDownloadLoop, downloadCount, writtenFiles] at ih ⊢
    exact ih (c + 1)

/-- Closed form of the playlist loop: the k-th stream (numbering from
`c + 1`) contributes one primitive call and the two widget updates
tagged `k`. -/
theorem playlistDownloadLoop_eq (downloadPath : String) (len : Nat)
    (l : List Stream) : ∀ c,
    playlistDownloadLoop downloadPath len l c =
      ((List.enumFrom (c + 1) l).map fun p =>
        [Effect.downloadPrim downloadPath
            (_remove_forbidden_characters_from_file_name p.2.title ++ ".mp4"),
          Effect.progressUpdate p.1,
          Effect.completedUpdate (toString p.1 ++ " of " ++ toString len)]).flatten := by
  induction l with
  | nil => intro c; rfl
  | cons v rest ih =>
    intro c
    simp only [playlistDownloadLoop, ih (c + 1), List.enumFrom, List.map_cons,
      List.flatten_cons]
    rfl

/-- `PlaylistDownloader.download` never changes the stream selection. -/
theorem playlist_download_state (dp dp' : PlaylistDownloader)
    (fs : String → Bool) (o : DownloadOptions) (dir : String) (fuel : Nat)
    (ep : List Effect) (h : dp.download fs o dir fuel = some (dp', ep)) :
    dp'.streamSelection = dp.streamSelection := by
  unfold PlaylistDownloader.download at h
  split at h
  · simp only [Option.some.injEq, Prod.mk.injEq] at h
    rw [← h.1]
  · split at h
    · simp only [Option.some.injEq, Prod.mk.injEq] at h
      rw [← h.1]
    · split at h
      · exact absurd h (by simp)
      · simp only [Option.some.injEq, Prod.mk.injEq] at h
        rw [← h.1]

/-- `PlaylistDownloader.step` never changes the stream selection. -/
theorem playlist_step_state (dp dp' : PlaylistDownloader)
    (fs : String → Bool) (event dir : String) (fuel : Nat)
    (ep : List Effect) (h : dp.step fs event dir fuel = some (dp', ep)) :
    dp'.streamSelection = dp.streamSelection := by
  unfold PlaylistDownloader.step at h
  split at h
  · simp only [Option.some.injEq, Prod.mk.injEq] at h
    rw [← h.1]
  · split at h
    · simp only [Option.some.injEq, Prod.mk.injEq] at h
      rw [← h.1]
    · split at h
      · exact playlist_download_state _ _ _ _ _ _ _ h
      · split at h
        · exact playlist_download_state _ _ _ _ _ _ _ h
        · split at h
          · exact playlist_download_state _ _ _ _ _ _ _ h
          · simp only [Option.some.injEq, Prod.mk.injEq] at h
            rw [← h.1]

/-- `VideoDownloader.download` never changes the object state at all. -/
theorem video_download_state (dv dv' : VideoDownloader)
    (fs : String → Bool) (o : DownloadOptions) (dir : String) (fuel : Nat)
    (ev : List Effect) (h : dv.download fs o dir fuel = some (dv', ev)) :
    dv' = dv := by
  unfold VideoDownloader.download at h
  split at h
  · simp only [Option.some.injEq, Prod.mk.injEq] at h
    exact h.1.symm
  · split at h
    · simp only [Option.some.injEq, Prod.mk.injEq] at h
      exact h.1.symm
    · split at h
      · exact absurd h (by simp)
      · simp only [Option.some.injEq, Prod.mk.injEq] at h
        exact h.1.symm

/-- `VideoDownloader.step` never changes the stream selection. -/
theorem video_step_state (dv dv' : VideoDownloader)
    (fs : String → Bool) (event dir : String) (fuel : Nat)
    (ev : List Effect) (h : dv.step fs event dir fuel = some (dv', ev)) :
    dv'.streamSelection = dv.streamSelection := by
  unfold VideoDownloader.step at h
  split at h
  · simp only [Option.some.injEq, Prod.mk.injEq] at h
    rw [← h.1]
  · split at h
    · simp only [Option.some.injEq, Prod.mk.injEq] at h
      rw [← h.1]
    · split at h
      · simp only [Option.some.injEq, Prod.mk.injEq] at h
        rw [← h.1]
      · split at h
        · rw [video_download_state _ _ _ _ _ _ _ h]
        · split at h
          · rw [video_download_state _ _ _ _ _ _ _ h]
          · split at h
            · rw [video_download_state _ _ _ _ _ _ _ h]
            · simp only [Option.some.injEq, Prod.mk.injEq] at h
              rw [← h.1]

/-! ### Claim theorems (continued) -/

/-- C4: with an empty target directory, `download` of either variant
returns immediately with exactly the directory-selection popup; the
trace contains no call of the download primitive. -/
theorem download_empty_dir (dp : PlaylistDownloader) (dv : VideoDownloader)
    (fs : String → Bool) (o : DownloadOptions) (fuel : Nat) :
    dp.download fs o "" fuel =
      some (dp, [Effect.popup "Please select a download directory"])
    ∧ dv.download fs o "" fuel =
      some (dv, [Effect.popup "Please select a download directory"])
    ∧ downloadCount [Effect.popup "Please select a download directory"] = 0 := by
  refine ⟨?_, ?_, ?_⟩
  · simp [PlaylistDownloader.download, _download_dir_popup]
  · simp [VideoDownloader.download, _download_dir_popup]
  · rfl

/-- C5: with a non-empty directory but an absent stream selection,
`download` of either variant returns immediately with exactly the
unavailability popup; no download primitive is called. -/
theorem download_unavailable (dp : PlaylistDownloader) (dv : VideoDownloader)
    (fs : String → Bool) (o : DownloadOptions) (dir : String) (fuel : Nat) :
    (dir ≠ "" → dp.streamSelection o = none →
      dp.download fs o dir fuel =
        some (dp, [Effect.popup "This resolution is unavailable."]))
    ∧ (dir ≠ "" → dv.streamSelection o = none →
      dv.download fs o dir fuel =
        some (dv, [Effect.popup "This resolution is unavailable."]))
    ∧ downloadCount [Effect.popup "This resolution is unavailable."] = 0 := by
  refine ⟨fun hdir hsel => ?_, fun hdir hsel => ?_, rfl⟩
  · simp [PlaylistDownloader.download, hdir, hsel, _resolution_unavailable_popup]
  · simp [VideoDownloader.download, hdir, hsel, _resolution_unavailable_popup]

/-- Witness for C5: a playlist of one video none of whose streams match,
and likewise a video. -/
theorem download_unavailable_witness :
    PlaylistDownloader.download
        (mkPlaylistDownloader (fun _ _ => none) "u" "t" "o" [⟨"v"⟩])
        (fun _ => false) .hd "x" 1 =
      some (mkPlaylistDownloader (fun _ _ => none) "u" "t" "o" [⟨"v"⟩],
        [Effect.popup "This resolution is unavailable."])
    ∧ VideoDownloader.download
        (mkVideoDownloader (fun _ _ => none) "u" ⟨"v"⟩ "c" "th")
        (fun _ => false) .hd "x" 1 =
      some (mkVideoDownloader (fun _ _ => none) "u" ⟨"v"⟩ "c" "th",
        [Effect.popup "This resolution is unavailable."]) :=
  ⟨(download_unavailable (mkPlaylistDownloader (fun _ _ => none) "u" "t" "o" [⟨"v"⟩])
      (mkVideoDownloader (fun _ _ => none) "u" ⟨"v"⟩ "c" "th")
      (fun _ => false) .hd "x" 1).1 (by decide) (by rfl),
    (download_unavailable (mkPlaylistDownloader (fun _ _ => none) "u" "t" "o" [⟨"v"⟩])
      (mkVideoDownloader (fun _ _ => none) "u" ⟨"v"⟩ "c" "th")
      (fun _ => false) .hd "x" 1).2.1 (by decide) (by rfl)⟩

/-- C6: the playlist stream selection maps each option either to `none`
— exactly when some video of the playlist has no matching stream — or to
a list with one resolved stream per video, in playlist order. -/
theorem playlist_selection_per_video
    (gs : YouTube → DownloadOptions → Option Stream)
    (url title ownerUrl : String) (videos : List YouTube)
    (o : DownloadOptions) :
    ((mkPlaylistDownloader gs url title ownerUrl videos).streamSelection o = none
      ↔ ∃ v ∈ videos, gs v o = none)
    ∧ ∀ l, (mkPlaylistDownloader gs url title ownerUrl videos).streamSelection o
        = some l →
        l.map some = videos.map (fun v => gs v o) ∧ l.length = videos.length := by
  have hsel : (mkPlaylistDownloader gs url title ownerUrl videos).streamSelection o
      = selectionFromList (_get_playlist gs videos o) := by
    cases o <;> rfl
  rw [hsel]
  obtain ⟨h1, h2⟩ := selectionFromList_spec (_get_playlist gs videos o)
  constructor
  · rw [h1]
    simp [_get_playlist, eq_comm]
  · intro l hl
    obtain ⟨hmap, hlen⟩ := h2 l hl
    constructor
    · simpa [_get_playlist] using hmap
    · simpa [_get_playlist] using hlen

/-- Witness for C6 on a two-video playlist whose streams all resolve. -/
theorem playlist_selection_per_video_witness :
    ([⟨"a", 0⟩, ⟨"b", 0⟩] : List Stream).map some =
        ([⟨"a"⟩, ⟨"b"⟩] : List YouTube).map
          (fun v => some { title := v.title, filesize := 0 })
    ∧ ([⟨"a", 0⟩, ⟨"b", 0⟩] : List Stream).length =
        ([⟨"a"⟩, ⟨"b"⟩] : List YouTube).length :=
  (playlist_selection_per_video
      (fun v _ => some { title := v.title, filesize := 0 })
      "u" "t" "o" [⟨"a"⟩, ⟨"b"⟩] .hd).2 [⟨"a", 0⟩, ⟨"b", 0⟩] (by rfl)

/-- C7: the stream selection of either variant is fixed by the
constructor, unavailability is the explicit value `none` of the total
mapping, and `download`, the event-loop dispatch and the pytube
callbacks never change it. -/
theorem stream_selection_immutable
    (gs : YouTube → DownloadOptions → Option Stream)
    (url title ownerUrl channelUrl thumbnailUrl : String)
    (videos : List YouTube) (video : YouTube)
    (dp dp' : PlaylistDownloader) (dv dv' : VideoDownloader)
    (fs : String → Bool) (o : DownloadOptions) (event dir : String)
    (fuel p : Nat) (ep ev : List Effect) :
    (mkPlaylistDownloader gs url title ownerUrl videos).streamSelection o =
      selectionFromList (_get_playlist gs videos o)
    ∧ (mkVideoDownloader gs url video channelUrl thumbnailUrl).streamSelection o
      = gs video o
    ∧ (dp.download fs o dir fuel = some (dp', ep) →
        dp'.streamSelection = dp.streamSelection)
    ∧ (dp.step fs event dir fuel = some (dp', ep) →
        dp'.streamSelection = dp.streamSelection)
    ∧ (dv.download fs o dir fuel = some (dv', ev) →
        dv'.streamSelection = dv.streamSelection)
    ∧ (dv.step fs event dir fuel = some (dv', ev) →
        dv'.streamSelection = dv.streamSelection)
    ∧ (dv.progress_check p).streamSelection = dv.streamSelection
    ∧ dv.download_complete.fst.streamSelection = dv.streamSelection := by
  refine ⟨by cases o <;> rfl, by cases o <;> rfl,
    fun h => playlist_download_state _ _ _ _ _ _ _ h,
    fun h => playlist_step_state _ _ _ _ _ _ _ h,
    fun h => by rw [video_download_state _ _ _ _ _ _ _ h],
    fun h => video_step_state _ _ _ _ _ _ _ h, rfl, rfl⟩

/-- Witness for C7: the implications discharged on a concrete playlist
and a concrete video downloader with empty target directory. -/
theorem stream_selection_immutable_witness :
    (mkPlaylistDownloader (fun _ _ => none) "u" "t" "o" []).streamSelection =
      (mkPlaylistDownloader (fun _ _ => none) "u" "t" "o" []).streamSelection
    ∧ (mkVideoDownloader (fun _ _ => none) "u" ⟨"v"⟩ "c" "th").streamSelection =
      (mkVideoDownloader (fun _ _ => none) "u" ⟨"v"⟩ "c" "th").streamSelection :=
  ⟨(stream_selection_immutable (fun _ _ => none) "u" "t" "o" "c" "th" [] ⟨"v"⟩
      (mkPlaylistDownloader (fun _ _ => none) "u" "t" "o" [])
      (mkPlaylistDownloader (fun _ _ => none) "u" "t" "o" [])
      (mkVideoDownloader (fun _ _ => none) "u" ⟨"v"⟩ "c" "th")
      (mkVideoDownloader (fun _ _ => none) "u" ⟨"v"⟩ "c" "th")
      (fun _ => false) .hd "-HD-" "" 1 0
      [Effect.popup "Please select a download directory"]
      [Effect.popup "Please select a download directory"]).2.2.1 (by rfl),
    (stream_selection_immutable (fun _ _ => none) "u" "t" "o" "c" "th" [] ⟨"v"⟩
      (mkPlaylistDownloader (fun _ _ => none) "u" "t" "o" [])
      (mkPlaylistDownloader (fun _ _ => none) "u" "t" "o" [])
      (mkVideoDownloader (fun _ _ => none) "u" ⟨"v"⟩ "c" "th")
      (mkVideoDownloader (fun _ _ => none) "u" ⟨"v"⟩ "c" "th")
      (fun _ => false) .hd "-HD-" "" 1 0
      [Effect.popup "Please select a download directory"]
      [Effect.popup "Please select a download directory"]).2.2.2.2.1 (by rfl)⟩

/-- C8: a playlist download with a non-empty directory and an available
selection of streams sanitises each stream title, resolves one
collision-free destination directory from the sanitised playlist title,
calls the download primitive once per stream, tags the two progress
widgets with the 1-based item count after each item, and ends with the
reset and the completion popup. -/
theorem playlist_download_run (d : PlaylistDownloader) (fs : String → Bool)
    (o : DownloadOptions) (dir : String) (fuel : Nat)
    (streams : List Stream) (dpath : String) :
    dir ≠ "" → d.streamSelection o = some streams →
    _increment_playlist_dir_name fs dir
        (_remove_forbidden_characters_from_file_name d.playlistTitle) fuel
      = some dpath →
    d.download fs o dir fuel =
      some ({ d with window := { progressValue := 0, completedText := "" } },
        ((List.enumFrom 1 streams).map fun p =>
          [Effect.downloadPrim dpath
              (_remove_forbidden_characters_from_file_name p.2.title ++ ".mp4"),
            Effect.progressUpdate p.1,
            Effect.completedUpdate
              (toString p.1 ++ " of " ++ toString d.playlistLength)]).flatten
        ++ [Effect.progressUpdate 0, Effect.completedUpdate "",
            Effect.popup "Download completed"])
    ∧ ∀ d' effects, d.download fs o dir fuel = some (d', effects) →
        downloadCount effects = streams.length
        ∧ d'.window = { progressValue := 0, completedText := "" } := by
  intro hdir hsel hinc
  have hmain0 : d.download fs o dir fuel =
      some ({ d with window := { progressValue := 0, completedText := "" } },
        playlistDownloadLoop dpath d.playlistLength streams 0
          ++ [Effect.progressUpdate 0, Effect.completedUpdate "",
              Effect.popup "Download completed"]) := by
    simp [PlaylistDownloader.download, hdir, hsel, hinc]
  constructor
  · rw [hmain0, playlistDownloadLoop_eq]
  · intro d' effects h
    rw [hmain0] at h
    simp only [Option.some.injEq, Prod.mk.injEq] at h
    constructor
    · rw [← h.2, downloadCount_append, downloadCount_playlistLoop]
      rfl
    · rw [← h.1]

/-- Witness for C8 on a one-video playlist into an empty filesystem. -/
theorem playlist_download_run_witness :
    PlaylistDownloader.download
        (mkPlaylistDownloader (fun v _ => some { title := v.title, filesize := 0 })
          "u" "T" "o" [⟨"A"⟩])
        (fun _ => false) .hd "/t" 1 =
      some (mkPlaylistDownloader (fun v _ => some { title := v.title, filesize := 0 })
          "u" "T" "o" [⟨"A"⟩],
        [Effect.downloadPrim "/t/T" "A.mp4", Effect.progressUpdate 1,
          Effect.completedUpdate "1 of 1", Effect.progressUpdate 0,
          Effect.completedUpdate "", Effect.popup "Download completed"]) :=
  ((playlist_download_run
      (mkPlaylistDownloader (fun v _ => some { title := v.title, filesize := 0 })
        "u" "T" "o" [⟨"A"⟩])
      (fun _ => false) .hd "/t" 1 [⟨"A", 0⟩] "/t/T")
    (by decide) (by rfl) (by rfl)).1

/-- C9: the scenario URL is classified as a video, and a video download
into `/tmp/out` at quality HD with the HD stream present calls the
download primitive exactly once, writing the single file
`/tmp/out/<sanitised title>.mp4`, or `/tmp/out/<sanitised title> (1).mp4`
when the former already exists. -/
theorem video_download_scenario (d : VideoDownloader) (fs : String → Bool)
    (hdStream : Stream) (fuel : Nat) :
    get_downloader "https://www.youtube.com/watch?v=abc12345678" = .ok .video
    ∧ (d.streamSelection .hd = some hdStream →
        fs ("/tmp/out/" ++
            _remove_forbidden_characters_from_file_name d.videoTitle ++ ".mp4")
          = false →
        d.download fs .hd "/tmp/out" fuel =
          some (d, [Effect.downloadPrim "/tmp/out"
            (_remove_forbidden_characters_from_file_name d.videoTitle ++ ".mp4")])
        ∧ writtenFiles [Effect.downloadPrim "/tmp/out"
            (_remove_forbidden_characters_from_file_name d.videoTitle ++ ".mp4")] =
          ["/tmp/out" ++ "/" ++
            (_remove_forbidden_characters_from_file_name d.videoTitle ++ ".mp4")])
    ∧ (d.streamSelection .hd = some hdStream →
        fs ("/tmp/out/" ++
            _remove_forbidden_characters_from_file_name d.videoTitle ++ ".mp4")
          = true →
        fs (videoCandidatePath "/tmp/out"
            (_remove_forbidden_characters_from_file_name d.videoTitle) 1) = false →
        1 ≤ fuel →
        d.download fs .hd "/tmp/out" fuel =
          some (d, [Effect.downloadPrim "/tmp/out"
            (_remove_forbidden_characters_from_file_name d.videoTitle
              ++ " (1)" ++ ".mp4")])
        ∧ writtenFiles [Effect.downloadPrim "/tmp/out"
            (_remove_forbidden_characters_from_file_name d.videoTitle
              ++ " (1)" ++ ".mp4")] =
          ["/tmp/out" ++ "/" ++
            (_remove_forbidden_characters_from_file_name d.videoTitle
              ++ " (1)" ++ ".mp4")]) := by
  refine ⟨by rfl, fun hsel hfs => ?_, fun hsel hfs hfs1 hfuel => ?_⟩
  · have hinc : _increment_video_file_name fs "/tmp/out"
        (_remove_forbidden_characters_from_file_name d.videoTitle) fuel =
        some (_remove_forbidden_characters_from_file_name d.videoTitle) := by
      simp [_increment_video_file_name, hfs]
    refine ⟨?_, rfl⟩
    simp [VideoDownloader.download, hsel, hinc]
  · have hloop : probeLoop
        (fun i => fs (videoCandidatePath "/tmp/out"
          (_remove_forbidden_characters_from_file_name d.videoTitle) i)) fuel 1 =
        some 1 :=
      probeLoop_eq_some _ fuel 1 1 le_rfl hfs1 (fun m hm h1m => by omega) (by omega)
    have hinc : _increment_video_file_name fs "/tmp/out"
        (_remove_forbidden_characters_from_file_name d.videoTitle) fuel =
        some (_remove_forbidden_characters_from_file_name d.videoTitle
          ++ " (" ++ toString 1 ++ ")") := by
      simp [_increment_video_file_name, hfs, hloop]
    have hname : _remove_forbidden_characters_from_file_name d.videoTitle
        ++ " (" ++ toString 1 ++ ")" =
        _remove_forbidden_characters_from_file_name d.videoTitle ++ " (1)" := by
      rw [string_append_assoc, string_append_assoc]
      rfl
    rw [hname] at hinc
    refine ⟨?_, rfl⟩
    simp [VideoDownloader.download, hsel, hinc]

/-- Witness for C9: both branches on concrete video downloaders, one
into an empty filesystem and one where the first candidate exists. -/
theorem video_download_scenario_witness :
    VideoDownloader.download
        (mkVideoDownloader (fun v _ => some { title := v.title, filesize := 0 })
          "u" ⟨"A:B"⟩ "c" "th")
        (fun _ => false) .hd "/tmp/out" 1 =
      some (mkVideoDownloader (fun v _ => some { title := v.title, filesize := 0 })
          "u" ⟨"A:B"⟩ "c" "th",
        [Effect.downloadPrim "/tmp/out" "AB.mp4"])
    ∧ VideoDownloader.download
        (mkVideoDownloader (fun v _ => some { title := v.title, filesize := 0 })
          "u" ⟨"A:B"⟩ "c" "th")
        (fun s => s == "/tmp/out/AB.mp4") .hd "/tmp/out" 1 =
      some (mkVideoDownloader (fun v _ => some { title := v.title, filesize := 0 })
          "u" ⟨"A:B"⟩ "c" "th",
        [Effect.downloadPrim "/tmp/out" "AB (1).mp4"]) :=
  ⟨((video_download_scenario
      (mkVideoDownloader (fun v _ => some { title := v.title, filesize := 0 })
        "u" ⟨"A:B"⟩ "c" "th")
      (fun _ => false) ⟨"A:B", 0⟩ 1).2.1 (by rfl) (by rfl)).1,
    ((video_download_scenario
      (mkVideoDownloader (fun v _ => some { title := v.title, filesize := 0 })
        "u" ⟨"A:B"⟩ "c" "th")
      (fun s => s == "/tmp/out/AB.mp4") ⟨"A:B", 0⟩ 1).2.2 (by rfl) (by rfl)
      (by rfl) (by decide)).1⟩

/-- C10: the url stored by either constructor always starts with
`https://`; the normalisation keeps an already-normalised input
unchanged and is idempotent. -/
theorem url_normalized (gs : YouTube → DownloadOptions → Option Stream)
    (url title ownerUrl channelUrl thumbnailUrl : String)
    (videos : List YouTube) (video : YouTube) :
    (mkPlaylistDownloader gs url title ownerUrl videos).url = normalizeUrl url
    ∧ (mkVideoDownloader gs url video channelUrl thumbnailUrl).url = normalizeUrl url
    ∧ "https://".data.isPrefixOf (normalizeUrl url).data = true
    ∧ ("https://".data.isPrefixOf url.data = true → normalizeUrl url = url)
    ∧ normalizeUrl (normalizeUrl url) = normalizeUrl url := by
  have hstarts : "https://".data.isPrefixOf (normalizeUrl url).data = true := by
    unfold normalizeUrl
    split
    · assumption
    · rw [string_data_append]
      exact charList_isPrefixOf_append _ _
  refine ⟨rfl, rfl, hstarts, fun h => ?_, ?_⟩
  · simp [normalizeUrl, h]
  · unfold normalizeUrl
    split
    · rfl
    · rw [if_pos]
      rw [string_data_append]
      exact charList_isPrefixOf_append _ _

/-- Witness for C10: normalisation is the identity on an already
normalised URL. -/
theorem url_normalized_witness :
    normalizeUrl "https://x" = "https://x" :=
  (url_normalized (fun _ _ => none) "https://x" "t" "o" "c" "th" [] ⟨"v"⟩).2.2.2.1
    (by decide)

end YTDownloader
